import Mathlib

/-!
Shallow embedding of the xion-farm CosmWasm contract
(`src/xion-farm-contract/src/lib.rs`).

The contract logic is pure state transformation over an abstract keyed
store, so it embeds directly:

* `cw_storage_plus::Item<State>` becomes an `Option State` field;
* `cw_storage_plus::Map<&str, Product>` becomes an association list kept
  sorted by the map's key order (cw-storage-plus iterates keys in
  ascending raw-byte order of the UTF-8 key; on `String` that is
  lexicographic order of the codepoint sequence, embedded here as
  `keyLt` on `String.data`);
* `u64` quantities become `Nat` (no arithmetic on them can overflow: the
  only subtraction is guarded), while the `total_products` counter is
  incremented modulo `2 ^ 64` since the claims quantify over arbitrarily
  long call sequences;
* `StdResult` becomes `Except StdError`; the two `generic_err` messages
  and the store's not-found error are kept verbatim;
* the CosmWasm host reverts all writes of a failed execution, so the
  transition function `execStep` keeps the old storage on `Except.error`.

Message dispatch, JSON serialization (`to_binary`) and caller
authentication are outside the embedded core, exactly as in the source's
own boundary: `query_product` / `query_products` return the value that
the source serializes.
-/

namespace XionFarm

/-- Lexicographic strict order on codepoint lists, matching the raw-byte
ascending key order used by `cw_storage_plus::Map` range queries
(UTF-8 byte order coincides with codepoint order). -/
def charsLt : List Char → List Char → Bool
  | [], [] => false
  | [], _ :: _ => true
  | _ :: _, [] => false
  | c :: cs, d :: ds => if c < d then true else if d < c then false else charsLt cs ds

/-- Key order of the product map: `charsLt` on the strings' character data. -/
def keyLt (a b : String) : Bool := charsLt a.data b.data

/-- Mirror of `cosmwasm_std::Coin`: a denomination plus a `u128` amount. -/
structure Coin where
  denom : String
  amount : Nat
  deriving DecidableEq, Repr

/-- Mirror of `ProductStatus` in lib.rs. -/
inductive ProductStatus where
  | Available
  | Sold
  deriving DecidableEq, Repr

/-- Mirror of `Product` in lib.rs. -/
structure Product where
  id : String
  name : String
  quantity : Nat
  price : Coin
  owner : String
  status : ProductStatus
  deriving DecidableEq, Repr

/-- Mirror of `State` in lib.rs: the global registration counter. -/
structure State where
  total_products : Nat
  deriving DecidableEq, Repr

/-- Modulus of the `u64` counter arithmetic. -/
def u64Mod : Nat := 2 ^ 64

/-- Mirror of `StdError` restricted to the variants this contract can
produce: the store's not-found error (from `Item::load` / `Map::load` on
a missing key) and `StdError::generic_err` with its message. -/
inductive StdError where
  | notFound (kind : String)
  | genericErr (msg : String)
  deriving DecidableEq, Repr

/-- The attribute list of a `cosmwasm_std::Response` (the only part of
`Response` this contract populates). -/
structure Response where
  attributes : List (String × String)
  deriving DecidableEq, Repr

/-- The persistent storage: the singleton `STATE` item and the
`PRODUCTS` map, the latter as an association list sorted by `keyLt`. -/
structure Storage where
  state : Option State
  products : List (String × Product)
  deriving DecidableEq, Repr

/-- Exact-match load from the product map (`PRODUCTS.load`). -/
def mapLoad : List (String × Product) → String → Option Product
  | [], _ => none
  | (k', v) :: rest, k => if k = k' then some v else mapLoad rest k

/-- Overwriting save into the product map (`PRODUCTS.save`), keeping the
association list sorted by `keyLt` so that iteration order models the
store's ascending key order. -/
def mapSave : List (String × Product) → String → Product → List (String × Product)
  | [], k, v => [(k, v)]
  | (k', v') :: rest, k, v =>
    if keyLt k k' then (k, v) :: (k', v') :: rest
    else if k = k' then (k, v) :: rest
    else (k', v') :: mapSave rest k v

/-- Mirror of `ExecuteMsg` in lib.rs. -/
inductive ExecuteMsg where
  | RegisterProduct (product_name : String) (product_price : Coin) (product_quantity : Nat)
  | Buy (product_id : String) (quantity : Nat)
  deriving DecidableEq, Repr

/-- Mirror of `instantiate` in lib.rs: stores `State { total_products: 0 }`. -/
def instantiate (store : Storage) : Except StdError (Storage × Response) :=
  let state : State := { total_products := 0 }
  Except.ok ({ store with state := some state },
    { attributes := [("action", "instantiate")] })

/-- Mirror of `execute_register_product` in lib.rs.  `sender` embeds
`info.sender.to_string()`.  The minted identifier is
`format!("product-{}", state.total_products + 1)`; the `u64` additions
wrap modulo `2 ^ 64`. -/
def execute_register_product (store : Storage) (sender : String) (product_name : String)
    (product_price : Coin) (product_quantity : Nat) :
    Except StdError (Storage × Response) :=
  match store.state with
  | none => Except.error (StdError.notFound "State")
  | some state =>
    let product_id := "product-" ++ Nat.repr ((state.total_products + 1) % u64Mod)
    let new_product : Product :=
      { id := product_id
        name := product_name
        quantity := product_quantity
        price := product_price
        owner := sender
        status := ProductStatus.Available }
    let products' := mapSave store.products product_id new_product
    let state' : State := { total_products := (state.total_products + 1) % u64Mod }
    Except.ok ({ store with products := products', state := some state' },
      { attributes := [("action", "register_product"), ("product_id", product_id)] })

/-- Mirror of `execute_buy` in lib.rs: load the product (not-found error
if absent), reject if already sold, reject if stock is smaller than the
request, otherwise subtract and mark `Sold` when the result is 0. -/
def execute_buy (store : Storage) (product_id : String) (quantity : Nat) :
    Except StdError (Storage × Response) :=
  match mapLoad store.products product_id with
  | none => Except.error (StdError.notFound "Product")
  | some product =>
    if product.status = ProductStatus.Sold then
      Except.error (StdError.genericErr "Product already sold")
    else if product.quantity < quantity then
      Except.error (StdError.genericErr "Not enough stock")
    else
      let product1 : Product := { product with quantity := product.quantity - quantity }
      let product2 : Product :=
        if product1.quantity = 0 then { product1 with status := ProductStatus.Sold }
        else product1
      Except.ok ({ store with products := mapSave store.products product_id product2 },
        { attributes := [("action", "buy"), ("product_id", product_id),
                         ("quantity", Nat.repr quantity)] })

/-- Mirror of the `execute` entry point dispatch in lib.rs. -/
def execute (store : Storage) (sender : String) (msg : ExecuteMsg) :
    Except StdError (Storage × Response) :=
  match msg with
  | ExecuteMsg.RegisterProduct n p q => execute_register_product store sender n p q
  | ExecuteMsg.Buy pid q => execute_buy store pid q

/-- Mirror of `query_products` in lib.rs: iterate the map in ascending
key order and collect the values (serialization elided). -/
def query_products (store : Storage) : List Product :=
  store.products.map Prod.snd

/-- Mirror of `query_product` in lib.rs (serialization elided). -/
def query_product (store : Storage) (id : String) : Except StdError Product :=
  match mapLoad store.products id with
  | none => Except.error (StdError.notFound "Product")
  | some product => Except.ok product

/-- One hosted execution: CosmWasm commits the new storage on success
and reverts every write on failure, so a failing call leaves the
storage unchanged. -/
def execStep (store : Storage) (sender : String) (msg : ExecuteMsg) : Storage :=
  match execute store sender msg with
  | Except.ok (s, _) => s
  | Except.error _ => store

/-- Run a sequence of hosted executions, each tagged with its sender. -/
def runMsgs (store : Storage) (msgs : List (String × ExecuteMsg)) : Storage :=
  msgs.foldl (fun s m => execStep s m.1 m.2) store

/-- Storage before `instantiate`: nothing persisted yet. -/
def emptyStorage : Storage := { state := none, products := [] }

/-- Storage immediately after `instantiate` on an empty store. -/
def initStorage : Storage := { state := some { total_products := 0 }, products := [] }

/-- Reachable ledger states: everything obtainable from one
`instantiate` followed by any sequence of `execute` calls. -/
def reachable (store : Storage) : Prop :=
  ∃ msgs : List (String × ExecuteMsg), runMsgs initStorage msgs = store

/-- Run a sequence of `execute_register_product` calls (sender, name,
price, quantity), collecting the `product_id` response attribute of
each successful call. -/
def runRegisters : Storage → List (String × String × Coin × Nat) →
    Storage × List (Option String)
  | store, [] => (store, [])
  | store, (sender, nm, pr, q) :: rest =>
    match execute_register_product store sender nm pr q with
    | Except.ok (s1, r) =>
      let res := runRegisters s1 rest
      (res.1, List.lookup "product_id" r.attributes :: res.2)
    | Except.error _ => runRegisters store rest

/-! Order lemmas for the key order. -/

/-- Cons characterization of `charsLt`. -/
lemma charsLt_cons {a b : Char} {as bs : List Char} :
    charsLt (a :: as) (b :: bs) = true ↔ (a < b ∨ (a = b ∧ charsLt as bs = true)) := by
  simp only [charsLt]
  rcases lt_trichotomy a b with h | h | h
  · simp [h]
  · subst h
    simp [lt_irrefl]
  · have h1 : ¬ a < b := not_lt_of_lt h
    have h2 : a ≠ b := (ne_of_lt h).symm
    simp [h, h1, h2]

/-- Transitivity of `charsLt`. -/
lemma charsLt_trans : ∀ {as bs cs : List Char},
    charsLt as bs = true → charsLt bs cs = true → charsLt as cs = true
  | [], bs, cs, h1, h2 => by
    cases bs with
    | nil => simp [charsLt] at h1
    | cons b bs' =>
      cases cs with
      | nil => simp [charsLt] at h2
      | cons c cs' => simp [charsLt]
  | _ :: _, [], _, h1, _ => by simp [charsLt] at h1
  | _ :: _, _ :: _, [], _, h2 => by simp [charsLt] at h2
  | a :: as', b :: bs', c :: cs', h1, h2 => by
    rcases charsLt_cons.mp h1 with hab | ⟨hab, h1'⟩
    · rcases charsLt_cons.mp h2 with hbc | ⟨hbc, h2'⟩
      · exact charsLt_cons.mpr (Or.inl (lt_trans hab hbc))
      · exact charsLt_cons.mpr (Or.inl (hbc ▸ hab))
    · subst hab
      rcases charsLt_cons.mp h2 with hbc | ⟨hbc, h2'⟩
      · exact charsLt_cons.mpr (Or.inl hbc)
      · exact charsLt_cons.mpr (Or.inr ⟨hbc, charsLt_trans h1' h2'⟩)

/-- Totality: if `as` is neither below nor equal to `bs`, then `bs` is
below `as`. -/
lemma charsLt_of_not_of_ne : ∀ {as bs : List Char},
    charsLt as bs = false → as ≠ bs → charsLt bs as = true
  | [], [], _, hne => absurd rfl hne
  | [], _ :: _, h1, _ => by simp [charsLt] at h1
  | _ :: _, [], _, _ => by simp [charsLt]
  | a :: as', b :: bs', h1, hne => by
    have h1' : ¬ charsLt (a :: as') (b :: bs') = true := by simp [h1]
    rcases lt_trichotomy a b with h | h | h
    · exact absurd (charsLt_cons.mpr (Or.inl h)) h1'
    · subst h
      have hrec : charsLt as' bs' = false := by
        rcases Bool.eq_false_or_eq_true (charsLt as' bs') with ht | hf
        · exact absurd (charsLt_cons.mpr (Or.inr ⟨rfl, ht⟩)) h1'
        · exact hf
      have hne' : as' ≠ bs' := by
        intro hEq
        exact hne (by rw [hEq])
      exact charsLt_cons.mpr (Or.inr ⟨rfl, charsLt_of_not_of_ne hrec hne'⟩)
    · exact charsLt_cons.mpr (Or.inl h)

/-- Transitivity of the key order. -/
lemma keyLt_trans {a b c : String} (h1 : keyLt a b = true) (h2 : keyLt b c = true) :
    keyLt a c = true :=
  charsLt_trans h1 h2

/-- Totality of the key order. -/
lemma keyLt_of_not_of_ne {a b : String} (h1 : keyLt a b = false) (h2 : a ≠ b) :
    keyLt b a = true := by
  refine charsLt_of_not_of_ne h1 ?_
  intro hd
  exact h2 (String.toList_inj.mp hd)

/-! Lemmas about the embedded product map. -/

/-- Everything in `mapSave m k v` is either the new binding or an old one. -/
lemma mem_mapSave : ∀ {m : List (String × Product)} {k : String} {v : Product}
    {x : String × Product}, x ∈ mapSave m k v → x = (k, v) ∨ x ∈ m
  | [], k, v, x, hx => by
    simp [mapSave] at hx
    exact Or.inl hx
  | (k', v') :: rest, k, v, x, hx => by
    simp only [mapSave] at hx
    split_ifs at hx with h1 h2
    · rcases List.mem_cons.mp hx with h | h
      · exact Or.inl h
      · exact Or.inr h
    · rcases List.mem_cons.mp hx with h | h
      · exact Or.inl h
      · exact Or.inr (List.mem_cons_of_mem _ h)
    · rcases List.mem_cons.mp hx with h | h
      · exact Or.inr (h ▸ List.mem_cons_self _ _)
      · rcases mem_mapSave h with h' | h'
        · exact Or.inl h'
        · exact Or.inr (List.mem_cons_of_mem _ h')

/-- `mapSave` preserves strict sortedness by key. -/
lemma pairwise_mapSave (k : String) (v : Product) :
    ∀ m : List (String × Product), m.Pairwise (fun a b => keyLt a.1 b.1 = true) →
    (mapSave m k v).Pairwise (fun a b => keyLt a.1 b.1 = true)
  | [], _ => by simp [mapSave]
  | (k', v') :: rest, h => by
    rw [List.pairwise_cons] at h
    simp only [mapSave]
    split_ifs with h1 h2
    · refine List.Pairwise.cons ?_ (List.Pairwise.cons h.1 h.2)
      intro x hx
      rcases List.mem_cons.mp hx with rfl | hx'
      · exact h1
      · exact keyLt_trans h1 (h.1 x hx')
    · subst h2
      exact List.Pairwise.cons h.1 h.2
    · refine List.Pairwise.cons ?_ (pairwise_mapSave k v rest h.2)
      intro x hx
      rcases mem_mapSave hx with rfl | hx'
      · exact keyLt_of_not_of_ne (Bool.not_eq_true _ ▸ h1) (fun hEq => h2 hEq)
      · exact h.1 x hx'

/-- Loading the key just saved yields the saved value. -/
lemma mapLoad_mapSave_self : ∀ (m : List (String × Product)) (k : String) (v : Product),
    mapLoad (mapSave m k v) k = some v
  | [], k, v => by simp [mapSave, mapLoad]
  | (k', v') :: rest, k, v => by
    simp only [mapSave]
    split_ifs with h1 h2
    · simp [mapLoad]
    · simp [mapLoad]
    · simp only [mapLoad, if_neg h2]
      exact mapLoad_mapSave_self rest k v

/-- A successful load is a member of the association list. -/
lemma mem_of_mapLoad : ∀ {m : List (String × Product)} {k : String} {p : Product},
    mapLoad m k = some p → (k, p) ∈ m
  | [], k, p, h => by simp [mapLoad] at h
  | (k', v') :: rest, k, p, h => by
    simp only [mapLoad] at h
    split_ifs at h with h1
    · cases h
      subst h1
      exact List.mem_cons_self _ _
    · exact List.mem_cons_of_mem _ (mem_of_mapLoad h)

/-! Outcome characterizations of the two execute handlers. -/

/-- Register fails (only) when the contract was never instantiated. -/
lemma execute_register_eq_error {s : Storage} (hst : s.state = none)
    (sender nm : String) (pr : Coin) (q : Nat) :
    execute_register_product s sender nm pr q = Except.error (StdError.notFound "State") := by
  simp [execute_register_product, hst]

/-- Register on an instantiated contract: the exact stored product, the
exact counter update, and the exact response. -/
lemma execute_register_eq_ok {s : Storage} {st : State} (hst : s.state = some st)
    (sender nm : String) (pr : Coin) (q : Nat) :
    execute_register_product s sender nm pr q = Except.ok
      ({ s with
          products := mapSave s.products ("product-" ++ Nat.repr ((st.total_products + 1) % u64Mod))
            { id := "product-" ++ Nat.repr ((st.total_products + 1) % u64Mod)
              name := nm
              quantity := q
              price := pr
              owner := sender
              status := ProductStatus.Available }
          state := some { total_products := (st.total_products + 1) % u64Mod } },
        { attributes := [("action", "register_product"),
            ("product_id", "product-" ++ Nat.repr ((st.total_products + 1) % u64Mod))] }) := by
  simp [execute_register_product, hst]

/-- Buy on a missing identifier: the store's not-found error. -/
lemma execute_buy_eq_notFound {s : Storage} {pid : String}
    (hload : mapLoad s.products pid = none) (q : Nat) :
    execute_buy s pid q = Except.error (StdError.notFound "Product") := by
  simp [execute_buy, hload]

/-- Buy on a sold product: the already-sold error, whatever the quantity. -/
lemma execute_buy_eq_alreadySold {s : Storage} {pid : String} {p : Product}
    (hload : mapLoad s.products pid = some p)
    (hsold : p.status = ProductStatus.Sold) (q : Nat) :
    execute_buy s pid q = Except.error (StdError.genericErr "Product already sold") := by
  simp [execute_buy, hload, hsold]

/-- Buy requesting more than the remaining stock: the stock error. -/
lemma execute_buy_eq_insufficient {s : Storage} {pid : String} {p : Product} {q : Nat}
    (hload : mapLoad s.products pid = some p)
    (hsold : ¬ p.status = ProductStatus.Sold) (hstock : p.quantity < q) :
    execute_buy s pid q = Except.error (StdError.genericErr "Not enough stock") := by
  simp [execute_buy, hload, hsold, hstock]

/-- Successful buy: the exact updated product and response. -/
lemma execute_buy_eq_ok {s : Storage} {pid : String} {p : Product} {q : Nat}
    (hload : mapLoad s.products pid = some p)
    (hsold : ¬ p.status = ProductStatus.Sold) (hstock : ¬ p.quantity < q) :
    execute_buy s pid q = Except.ok
      ({ s with products :=
                  mapSave s.products pid
                    (if p.quantity - q = 0
                      then { p with quantity := p.quantity - q, status := ProductStatus.Sold }
                      else { p with quantity := p.quantity - q }) },
        { attributes := [("action", "buy"), ("product_id", pid),
            ("quantity", Nat.repr q)] }) := by
  simp [execute_buy, hload, hsold, hstock]

/-- A register step on an uninstantiated store reverts. -/
lemma execStep_register_none {s : Storage} (hst : s.state = none)
    (sender nm : String) (pr : Coin) (q : Nat) :
    execStep s sender (ExecuteMsg.RegisterProduct nm pr q) = s := by
  simp [execStep, execute, execute_register_eq_error hst]

/-- A register step on an instantiated store commits the new product and
the incremented counter. -/
lemma execStep_register_some {s : Storage} {st : State} (hst : s.state = some st)
    (sender nm : String) (pr : Coin) (q : Nat) :
    execStep s sender (ExecuteMsg.RegisterProduct nm pr q) =
      { s with
          products :=
            mapSave s.products ("product-" ++ Nat.repr ((st.total_products + 1) % u64Mod))
              { id := "product-" ++ Nat.repr ((st.total_products + 1) % u64Mod)
                name := nm
                quantity := q
                price := pr
                owner := sender
                status := ProductStatus.Available }
          state := some { total_products := (st.total_products + 1) % u64Mod } } := by
  simp [execStep, execute, execute_register_eq_ok hst]

/-- A buy step on a missing identifier reverts. -/
lemma execStep_buy_notFound {s : Storage} {pid : String}
    (hload : mapLoad s.products pid = none) (sender : String) (q : Nat) :
    execStep s sender (ExecuteMsg.Buy pid q) = s := by
  simp [execStep, execute, execute_buy_eq_notFound hload]

/-- A buy step on a sold product reverts. -/
lemma execStep_buy_sold {s : Storage} {pid : String} {p : Product}
    (hload : mapLoad s.products pid = some p)
    (hsold : p.status = ProductStatus.Sold) (sender : String) (q : Nat) :
    execStep s sender (ExecuteMsg.Buy pid q) = s := by
  simp [execStep, execute, execute_buy_eq_alreadySold hload hsold]

/-- A buy step requesting more than the remaining stock reverts. -/
lemma execStep_buy_insufficient {s : Storage} {pid : String} {p : Product} {q : Nat}
    (hload : mapLoad s.products pid = some p)
    (hsold : ¬ p.status = ProductStatus.Sold) (hstock : p.quantity < q) (sender : String) :
    execStep s sender (ExecuteMsg.Buy pid q) = s := by
  simp [execStep, execute, execute_buy_eq_insufficient hload hsold hstock]

/-- A successful buy step commits the updated product. -/
lemma execStep_buy_ok {s : Storage} {pid : String} {p : Product} {q : Nat}
    (hload : mapLoad s.products pid = some p)
    (hsold : ¬ p.status = ProductStatus.Sold) (hstock : ¬ p.quantity < q) (sender : String) :
    execStep s sender (ExecuteMsg.Buy pid q) =
      { s with products :=
                 mapSave s.products pid
                   (if p.quantity - q = 0
                     then { p with quantity := p.quantity - q, status := ProductStatus.Sold }
                     else { p with quantity := p.quantity - q }) } := by
  simp [execStep, execute, execute_buy_eq_ok hload hsold hstock]

/-! The reachability invariant. -/

/-- Well-formedness of a storage: the product list is strictly sorted by
key, each stored product records its own key in its `id` field, and a
`Sold` product has zero quantity. -/
def WF (s : Storage) : Prop :=
  s.products.Pairwise (fun a b => keyLt a.1 b.1 = true) ∧
  ∀ x ∈ s.products, x.2.id = x.1 ∧ (x.2.status = ProductStatus.Sold → x.2.quantity = 0)

/-- The freshly instantiated storage is well-formed. -/
lemma wf_initStorage : WF initStorage := by
  constructor
  · simp [initStorage]
  · simp [initStorage]

/-- One hosted execution preserves well-formedness. -/
lemma wf_execStep (s : Storage) (sender : String) (msg : ExecuteMsg) (h : WF s) :
    WF (execStep s sender msg) := by
  cases msg with
  | RegisterProduct n pr q =>
    cases hst : s.state with
    | none =>
      rw [execStep_register_none hst sender n pr q]
      exact h
    | some st =>
      rw [execStep_register_some hst sender n pr q]
      constructor
      · exact pairwise_mapSave _ _ _ h.1
      · intro x hx
        rcases mem_mapSave hx with rfl | hx'
        · exact ⟨rfl, by intro hs; cases hs⟩
        · exact h.2 x hx'
  | Buy pid q =>
    cases hload : mapLoad s.products pid with
    | none =>
      rw [execStep_buy_notFound hload sender q]
      exact h
    | some p =>
      by_cases hsold : p.status = ProductStatus.Sold
      · rw [execStep_buy_sold hload hsold sender q]
        exact h
      · by_cases hstock : p.quantity < q
        · rw [execStep_buy_insufficient hload hsold hstock sender]
          exact h
        · rw [execStep_buy_ok hload hsold hstock sender]
          constructor
          · exact pairwise_mapSave _ _ _ h.1
          · intro x hx
            rcases mem_mapSave hx with rfl | hx'
            · have hid : p.id = pid := (h.2 _ (mem_of_mapLoad hload)).1
              split_ifs with hzero
              · exact ⟨hid, fun _ => hzero⟩
              · exact ⟨hid, fun hs => absurd hs hsold⟩
            · exact h.2 x hx'

/-- Any run of hosted executions preserves well-formedness. -/
lemma wf_runMsgs : ∀ (msgs : List (String × ExecuteMsg)) (s : Storage),
    WF s → WF (runMsgs s msgs)
  | [], s, h => h
  | m :: rest, s, h => by
    have : runMsgs s (m :: rest) = runMsgs (execStep s m.1 m.2) rest := by
      simp [runMsgs]
    rw [this]
    exact wf_runMsgs rest _ (wf_execStep s m.1 m.2 h)

/-- Every reachable storage is well-formed. -/
lemma reachable_wf {s : Storage} (h : reachable s) : WF s := by
  rcases h with ⟨msgs, rfl⟩
  exact wf_runMsgs msgs initStorage wf_initStorage

/-! Claim theorems. -/

/-- C1, as stated, is false: `execute_register_product` stores
`status := Available` unconditionally, so registering with quantity 0
yields a reachable state holding an item with `quantity = 0` whose
status is `Available`, not `Sold`. -/
theorem C1_counterexample :
    reachable (runMsgs initStorage
      [("alice", ExecuteMsg.RegisterProduct "Tomato" { denom := "earth", amount := 50 } 0)]) ∧
    mapLoad (runMsgs initStorage
      [("alice", ExecuteMsg.RegisterProduct "Tomato" { denom := "earth", amount := 50 } 0)]).products
      "product-1" =
      some { id := "product-1", name := "Tomato", quantity := 0,
             price := { denom := "earth", amount := 50 }, owner := "alice",
             status := ProductStatus.Available } ∧
    ProductStatus.Available ≠ ProductStatus.Sold :=
  ⟨⟨_, rfl⟩, rfl, by decide⟩

/-- C1 (amended): in every reachable ledger state, every stored item
with status `Sold` has quantity 0; the converse implication fails when
an item is registered with quantity 0 (see the counterexample). -/
theorem C1_sold_implies_zero_quantity {s : Storage} (h : reachable s) :
    ∀ x ∈ s.products, x.2.status = ProductStatus.Sold → x.2.quantity = 0 :=
  fun x hx => ((reachable_wf h).2 x hx).2

/-- Witness for C1: in the reachable state where item `product-1` was
registered with quantity 2 and then fully bought, the item is `Sold`,
and the amended theorem yields that its quantity is 0. -/
theorem C1_witness :
    ("product-1",
      (⟨"product-1", "Tomato", 0, ⟨"earth", 50⟩, "alice", ProductStatus.Sold⟩ : Product)) ∈
      (runMsgs initStorage
        [("alice", ExecuteMsg.RegisterProduct "Tomato" { denom := "earth", amount := 50 } 2),
         ("bob", ExecuteMsg.Buy "product-1" 2)]).products ∧
    (⟨"product-1", "Tomato", 0, ⟨"earth", 50⟩, "alice", ProductStatus.Sold⟩ : Product).quantity = 0 :=
  ⟨by decide,
   C1_sold_implies_zero_quantity (s := runMsgs initStorage
       [("alice", ExecuteMsg.RegisterProduct "Tomato" { denom := "earth", amount := 50 } 2),
        ("bob", ExecuteMsg.Buy "product-1" 2)]) ⟨_, rfl⟩
     ("product-1", ⟨"product-1", "Tomato", 0, ⟨"earth", 50⟩, "alice", ProductStatus.Sold⟩)
     (by decide) rfl⟩

/-- C2, as stated, is false: a `Register` with quantity 0 stores the new
item with status `Available`, not `Sold`. -/
theorem C2_counterexample :
    execute_register_product initStorage "alice" "Tomato" { denom := "earth", amount := 50 } 0 =
      Except.ok
        ({ state := some { total_products := 1 },
           products := [("product-1",
             { id := "product-1", name := "Tomato", quantity := 0,
               price := { denom := "earth", amount := 50 }, owner := "alice",
               status := ProductStatus.Available })] },
         { attributes := [("action", "register_product"), ("product_id", "product-1")] }) ∧
    ProductStatus.Available ≠ ProductStatus.Sold :=
  ⟨rfl, by decide⟩

/-- C2 (amended): every `Register` call on an instantiated ledger
succeeds and stores the new item with status `Available` regardless of
the supplied quantity — in particular also when the quantity is 0. -/
theorem C2_register_status_always_available {s : Storage} {st : State}
    (hst : s.state = some st) (sender nm : String) (pr : Coin) (q : Nat) :
    ∃ s' r, execute_register_product s sender nm pr q = Except.ok (s', r) ∧
      ∃ p, mapLoad s'.products
          ("product-" ++ Nat.repr ((st.total_products + 1) % u64Mod)) = some p ∧
        p.status = ProductStatus.Available ∧ p.quantity = q :=
  ⟨_, _, execute_register_eq_ok hst sender nm pr q,
    _, mapLoad_mapSave_self _ _ _, rfl, rfl⟩

/-- Witness for C2: registering with quantity 0 on the freshly
instantiated ledger stores an `Available` item of quantity 0. -/
theorem C2_witness :
    ∃ s' r, execute_register_product initStorage "alice" "Tomato"
        { denom := "earth", amount := 50 } 0 = Except.ok (s', r) ∧
      ∃ p, mapLoad s'.products ("product-" ++ Nat.repr ((0 + 1) % u64Mod)) = some p ∧
        p.status = ProductStatus.Available ∧ p.quantity = 0 :=
  C2_register_status_always_available rfl "alice" "Tomato" { denom := "earth", amount := 50 } 0

/-- C3: buying `q` with `0 < q ≤ quantity` from an `Available` item
succeeds, the stored quantity drops by `q`, and the stored status is
`Sold` exactly when the new quantity is 0, staying `Available`
otherwise. -/
theorem C3_purchase_success {s : Storage} {pid : String} {q : Nat} {p : Product}
    (hload : mapLoad s.products pid = some p)
    (hav : p.status = ProductStatus.Available)
    (_hpos : 0 < q) (hle : q ≤ p.quantity) :
    ∃ s' r, execute_buy s pid q = Except.ok (s', r) ∧
      ∃ p', mapLoad s'.products pid = some p' ∧
        p'.quantity = p.quantity - q ∧
        (p'.status = ProductStatus.Sold ↔ p.quantity - q = 0) ∧
        (p.quantity - q ≠ 0 → p'.status = ProductStatus.Available) := by
  have hsold : ¬ p.status = ProductStatus.Sold := by simp [hav]
  have hstock : ¬ p.quantity < q := not_lt.mpr hle
  refine ⟨_, _, execute_buy_eq_ok hload hsold hstock,
    _, mapLoad_mapSave_self _ _ _, ?_, ?_, ?_⟩
  · by_cases h0 : p.quantity - q = 0 <;> simp [h0]
  · by_cases h0 : p.quantity - q = 0 <;> simp [h0, hav]
  · by_cases h0 : p.quantity - q = 0 <;> simp [h0, hav]

/-- Witness for C3: buying 30 out of 100 leaves 70, still `Available`. -/
theorem C3_witness :
    ∃ s' r, execute_buy
        { state := some { total_products := 1 },
          products := [("product-1",
            { id := "product-1", name := "Tomato", quantity := 100,
              price := { denom := "earth", amount := 50 }, owner := "alice",
              status := ProductStatus.Available })] } "product-1" 30 = Except.ok (s', r) ∧
      ∃ p', mapLoad s'.products "product-1" = some p' ∧
        p'.quantity = 100 - 30 ∧
        (p'.status = ProductStatus.Sold ↔ 100 - 30 = 0) ∧
        (100 - 30 ≠ 0 → p'.status = ProductStatus.Available) :=
  @C3_purchase_success
    { state := some { total_products := 1 },
      products := [("product-1",
        { id := "product-1", name := "Tomato", quantity := 100,
          price := { denom := "earth", amount := 50 }, owner := "alice",
          status := ProductStatus.Available })] }
    "product-1" 30
    { id := "product-1", name := "Tomato", quantity := 100,
      price := { denom := "earth", amount := 50 }, owner := "alice",
      status := ProductStatus.Available }
    rfl rfl (by decide) (by decide)

/-- C4: a `Buy` that fails — with any of the three errors — commits
nothing: the hosted step leaves the whole storage (all items and the
counter) unchanged; a request exceeding the remaining stock is rejected
with the stock error; and a successful purchase satisfies
`new quantity + q = old quantity`, so the `u64` subtraction never
underflows and the quantity never becomes negative. -/
theorem C4_failed_purchase_reverts :
    (∀ (s : Storage) (sender pid : String) (q : Nat) (e : StdError),
        execute_buy s pid q = Except.error e →
        execStep s sender (ExecuteMsg.Buy pid q) = s) ∧
    (∀ (s : Storage) (pid : String) (q : Nat) (p : Product),
        mapLoad s.products pid = some p → ¬ p.status = ProductStatus.Sold →
        p.quantity < q →
        execute_buy s pid q = Except.error (StdError.genericErr "Not enough stock")) ∧
    (∀ (s s' : Storage) (r : Response) (pid : String) (q : Nat) (p : Product),
        mapLoad s.products pid = some p → execute_buy s pid q = Except.ok (s', r) →
        ∃ p', mapLoad s'.products pid = some p' ∧ p'.quantity + q = p.quantity) := by
  refine ⟨?_, ?_, ?_⟩
  · intro s sender pid q e h
    simp [execStep, execute, h]
  · intro s pid q p hload hsold hstock
    exact execute_buy_eq_insufficient hload hsold hstock
  · intro s s' r pid q p hload hok
    by_cases hsold : p.status = ProductStatus.Sold
    · rw [execute_buy_eq_alreadySold hload hsold q] at hok
      cases hok
    · by_cases hstock : p.quantity < q
      · rw [execute_buy_eq_insufficient hload hsold hstock] at hok
        cases hok
      · rw [execute_buy_eq_ok hload hsold hstock] at hok
        have h := Except.ok.inj hok
        have h1 : _ = s' := congrArg Prod.fst h
        subst h1
        refine ⟨_, mapLoad_mapSave_self _ _ _, ?_⟩
        by_cases h0 : p.quantity - q = 0 <;> simp [h0] <;> omega

/-- Witness for C4: a buy of 200 against remaining stock 100 fails with
the stock error, the step reverts, and a successful buy of 30 out of
100 leaves 70 with `70 + 30 = 100`. -/
theorem C4_witness :
    execStep
      { state := some { total_products := 1 },
        products := [("product-1",
          { id := "product-1", name := "Tomato", quantity := 100,
            price := { denom := "earth", amount := 50 }, owner := "alice",
            status := ProductStatus.Available })] }
      "bob" (ExecuteMsg.Buy "product-1" 200) =
      { state := some { total_products := 1 },
        products := [("product-1",
          { id := "product-1", name := "Tomato", quantity := 100,
            price := { denom := "earth", amount := 50 }, owner := "alice",
            status := ProductStatus.Available })] } ∧
    execute_buy
      { state := some { total_products := 1 },
        products := [("product-1",
          { id := "product-1", name := "Tomato", quantity := 100,
            price := { denom := "earth", amount := 50 }, owner := "alice",
            status := ProductStatus.Available })] }
      "product-1" 200 = Except.error (StdError.genericErr "Not enough stock") :=
  ⟨C4_failed_purchase_reverts.1 _ "bob" "product-1" 200 _
      (C4_failed_purchase_reverts.2.1 _ "product-1" 200 _ rfl (by decide) (by decide)),
   C4_failed_purchase_reverts.2.1 _ "product-1" 200 _ rfl (by decide) (by decide)⟩

/-- C5: `Buy` validates in the fixed source order — missing identifier
first (not-found error), then sold status (already-sold error, with no
condition on the requested quantity, hence also for a request of 0),
then stock (not-enough-stock error) — and the three error values are
pairwise distinct, so the caller can tell them apart. -/
theorem C5_validation_order :
    (∀ (s : Storage) (pid : String) (q : Nat),
        mapLoad s.products pid = none →
        execute_buy s pid q = Except.error (StdError.notFound "Product")) ∧
    (∀ (s : Storage) (pid : String) (q : Nat) (p : Product),
        mapLoad s.products pid = some p → p.status = ProductStatus.Sold →
        execute_buy s pid q = Except.error (StdError.genericErr "Product already sold")) ∧
    (∀ (s : Storage) (pid : String) (q : Nat) (p : Product),
        mapLoad s.products pid = some p → ¬ p.status = ProductStatus.Sold →
        p.quantity < q →
        execute_buy s pid q = Except.error (StdError.genericErr "Not enough stock")) ∧
    (StdError.notFound "Product" ≠ StdError.genericErr "Product already sold" ∧
      StdError.notFound "Product" ≠ StdError.genericErr "Not enough stock" ∧
      StdError.genericErr "Product already sold" ≠ StdError.genericErr "Not enough stock") := by
  refine ⟨?_, ?_, ?_, by decide, by decide, by decide⟩
  · intro s pid q hload
    exact execute_buy_eq_notFound hload q
  · intro s pid q p hload hsold
    exact execute_buy_eq_alreadySold hload hsold q
  · intro s pid q p hload hsold hstock
    exact execute_buy_eq_insufficient hload hsold hstock

/-- Witness for C5: a missing identifier on the fresh ledger gives the
not-found error, and a request of 0 against a sold item still gives the
already-sold error. -/
theorem C5_witness :
    execute_buy initStorage "product-99" 1 =
      Except.error (StdError.notFound "Product") ∧
    execute_buy
      { state := some { total_products := 1 },
        products := [("product-1",
          { id := "product-1", name := "Tomato", quantity := 0,
            price := { denom := "earth", amount := 50 }, owner := "alice",
            status := ProductStatus.Sold })] }
      "product-1" 0 = Except.error (StdError.genericErr "Product already sold") :=
  ⟨C5_validation_order.1 initStorage "product-99" 1 rfl,
   C5_validation_order.2.1 _ "product-1" 0 _ rfl rfl⟩

/-- C10: a `Buy` of quantity 0 on an existing `Available` item is not
rejected: it succeeds, leaves the quantity unchanged, and flips the
status to `Sold` exactly when the quantity was already 0 (as for an
item registered with quantity 0). -/
theorem C10_zero_quantity_purchase {s : Storage} {pid : String} {p : Product}
    (hload : mapLoad s.products pid = some p)
    (hav : p.status = ProductStatus.Available) :
    ∃ s' r, execute_buy s pid 0 = Except.ok (s', r) ∧
      ∃ p', mapLoad s'.products pid = some p' ∧
        p'.quantity = p.quantity ∧
        (p'.status = ProductStatus.Sold ↔ p.quantity = 0) := by
  have hsold : ¬ p.status = ProductStatus.Sold := by simp [hav]
  have hstock : ¬ p.quantity < 0 := Nat.not_lt_zero _
  refine ⟨_, _, execute_buy_eq_ok hload hsold hstock,
    _, mapLoad_mapSave_self _ _ _, ?_, ?_⟩
  · by_cases h0 : p.quantity = 0 <;> simp [h0]
  · by_cases h0 : p.quantity = 0 <;> simp [h0, hav]

/-- Witness for C10: buying 0 of an `Available` item that was registered
with quantity 0 succeeds and marks it `Sold` with quantity still 0. -/
theorem C10_witness :
    ∃ s' r, execute_buy
        { state := some { total_products := 1 },
          products := [("product-1",
            { id := "product-1", name := "Tomato", quantity := 0,
              price := { denom := "earth", amount := 50 }, owner := "alice",
              status := ProductStatus.Available })] } "product-1" 0 = Except.ok (s', r) ∧
      ∃ p', mapLoad s'.products "product-1" = some p' ∧
        p'.quantity = 0 ∧
        (p'.status = ProductStatus.Sold ↔ (0 : Nat) = 0) :=
  @C10_zero_quantity_purchase
    { state := some { total_products := 1 },
      products := [("product-1",
        { id := "product-1", name := "Tomato", quantity := 0,
          price := { denom := "earth", amount := 50 }, owner := "alice",
          status := ProductStatus.Available })] }
    "product-1"
    { id := "product-1", name := "Tomato", quantity := 0,
      price := { denom := "earth", amount := 50 }, owner := "alice",
      status := ProductStatus.Available }
    rfl rfl

/-- Unrolling of `runRegisters`: starting from counter value `t`, a
sequence of registers mints the sequence numbers `t+1, t+2, ...` and
leaves the counter at `t + n`, as long as the `u64` counter does not
wrap. -/
lemma runRegisters_from : ∀ (args : List (String × String × Coin × Nat)) (s : Storage) (t : Nat),
    s.state = some { total_products := t } → t + args.length < u64Mod →
    (runRegisters s args).2 =
      (List.range args.length).map (fun i => some ("product-" ++ Nat.repr (t + i + 1))) ∧
    (runRegisters s args).1.state = some { total_products := t + args.length }
  | [], s, t, hst, _ => by
    constructor
    · simp [runRegisters]
    · simpa [runRegisters] using hst
  | (sender, nm, pr, q) :: rest, s, t, hst, hbound => by
    have hb' : t + (rest.length + 1) < u64Mod := by simpa using hbound
    have h1 : t + 1 < u64Mod := by omega
    have hmod : (t + 1) % u64Mod = t + 1 := Nat.mod_eq_of_lt h1
    simp only [runRegisters, execute_register_eq_ok hst sender nm pr q, hmod]
    have IH := runRegisters_from rest
      { s with
          products := mapSave s.products ("product-" ++ Nat.repr (t + 1))
            { id := "product-" ++ Nat.repr (t + 1)
              name := nm
              quantity := q
              price := pr
              owner := sender
              status := ProductStatus.Available }
          state := some { total_products := t + 1 } }
      (t + 1) rfl (by omega)
    refine ⟨?_, ?_⟩
    · rw [IH.1]
      have hlook : List.lookup "product_id"
          [("action", "register_product"), ("product_id", "product-" ++ Nat.repr (t + 1))] =
          some ("product-" ++ Nat.repr (t + 1)) := by
        simp [List.lookup]
      rw [hlook]
      rw [List.length_cons, List.range_succ_eq_map, List.map_cons, List.map_map]
      have hhead : some ("product-" ++ Nat.repr (t + 0 + 1)) =
          some ("product-" ++ Nat.repr (t + 1)) := by
        rw [Nat.add_zero]
      rw [hhead]
      refine congrArg _ (List.map_congr_left ?_)
      intro a _
      have ha : t + 1 + a + 1 = t + Nat.succ a + 1 := by omega
      simp only [Function.comp_apply, ha]
    · rw [IH.2]
      have : t + 1 + rest.length = t + (rest.length + 1) := by omega
      rw [this]
      rfl

/-- C6: after one `Initialize` (counter 0), any sequence of register
calls — all of which succeed — mints exactly the sequence numbers
1, 2, 3, ... in order: the collected `product_id` attributes are
exactly `product-1 .. product-n`, strictly increasing with no gaps and
no repeats, provided the `u64` counter does not wrap (fewer than `2^64`
calls). -/
theorem C6_identifiers_sequential (args : List (String × String × Coin × Nat))
    (hlen : args.length < u64Mod) :
    (runRegisters initStorage args).2 =
      (List.range args.length).map (fun i => some ("product-" ++ Nat.repr (i + 1))) := by
  have h := (runRegisters_from args initStorage 0 rfl (by simpa using hlen)).1
  rw [h]
  refine List.map_congr_left ?_
  intro a _
  rw [Nat.zero_add]

/-- Witness for C6: three registrations from the fresh ledger mint
`product-1`, `product-2`, `product-3` in order. -/
theorem C6_witness :
    (runRegisters initStorage
      [("alice", "Tomato", { denom := "earth", amount := 50 }, 100),
       ("bob", "Corn", { denom := "earth", amount := 20 }, 5),
       ("carol", "Rice", { denom := "earth", amount := 30 }, 7)]).2 =
      (List.range 3).map (fun i => some ("product-" ++ Nat.repr (i + 1))) :=
  C6_identifiers_sequential _ (by decide)

/-- C7, as stated, is false: the identifier minted for the first
registration after instantiation is `product-1`, not `item-1` — the
source prefixes identifiers with `product-`, not `item-`. -/
theorem C7_counterexample :
    (∃ s' r, execute_register_product initStorage "creator" "Tomato"
        { denom := "earth", amount := 50 } 100 = Except.ok (s', r) ∧
      List.lookup "product_id" r.attributes = some "product-1") ∧
    ("product-1" : String) ≠ "item-1" :=
  ⟨⟨_, _, rfl, rfl⟩, by decide⟩

/-- C7 (amended): every identifier returned by a register call has the
format `product-` followed by the sequence number; in particular the
first register after instantiation returns `product-1`. -/
theorem C7_identifier_prefix :
    (∀ (s : Storage) (st : State), s.state = some st →
      ∀ (sender nm : String) (pr : Coin) (q : Nat),
        ∃ s' r, execute_register_product s sender nm pr q = Except.ok (s', r) ∧
          List.lookup "product_id" r.attributes =
            some ("product-" ++ Nat.repr ((st.total_products + 1) % u64Mod))) ∧
    (∃ s' r, execute_register_product initStorage "creator" "Tomato"
        { denom := "earth", amount := 50 } 100 = Except.ok (s', r) ∧
      List.lookup "product_id" r.attributes = some "product-1") := by
  constructor
  · intro s st hst sender nm pr q
    refine ⟨_, _, execute_register_eq_ok hst sender nm pr q, ?_⟩
    simp [List.lookup]
  · exact ⟨_, _, rfl, rfl⟩

/-- Witness for C7: the format statement applied to the freshly
instantiated ledger. -/
theorem C7_witness :
    ∃ s' r, execute_register_product initStorage "creator" "Tomato"
        { denom := "earth", amount := 50 } 100 = Except.ok (s', r) ∧
      List.lookup "product_id" r.attributes =
        some ("product-" ++ Nat.repr ((0 + 1) % u64Mod)) :=
  C7_identifier_prefix.1 initStorage { total_products := 0 } rfl "creator" "Tomato"
    { denom := "earth", amount := 50 } 100

/-- C8: on every reachable ledger state, `ListItems` returns exactly
the stored items — all of them, sold ones included — in ascending
identifier order, and the empty list when nothing is registered; it is
a pure function of the storage and performs no writes. -/
theorem C8_list_items {s : Storage} (h : reachable s) :
    query_products s = s.products.map Prod.snd ∧
    (query_products s).Pairwise (fun a b => keyLt a.id b.id = true) ∧
    (∀ x ∈ s.products, x.2 ∈ query_products s) ∧
    (s.products = [] → query_products s = []) := by
  have hwf := reachable_wf h
  refine ⟨rfl, ?_, ?_, ?_⟩
  · rw [show query_products s = s.products.map Prod.snd from rfl, List.pairwise_map]
    refine hwf.1.imp_of_mem ?_
    intro a b ha hb hab
    rw [(hwf.2 a ha).1, (hwf.2 b hb).1]
    exact hab
  · intro x hx
    exact List.mem_map_of_mem Prod.snd hx
  · intro h0
    simp [query_products, h0]

/-- Witness for C8: a reachable ledger with three registered items (the
second fully bought, hence `Sold`) lists them all in ascending
identifier order. -/
theorem C8_witness :
    query_products (runMsgs initStorage
      [("alice", ExecuteMsg.RegisterProduct "Tomato" { denom := "earth", amount := 50 } 2),
       ("bob", ExecuteMsg.RegisterProduct "Corn" { denom := "earth", amount := 20 } 1),
       ("carol", ExecuteMsg.RegisterProduct "Rice" { denom := "earth", amount := 30 } 1),
       ("dave", ExecuteMsg.Buy "product-2" 1)]) =
      (runMsgs initStorage
        [("alice", ExecuteMsg.RegisterProduct "Tomato" { denom := "earth", amount := 50 } 2),
         ("bob", ExecuteMsg.RegisterProduct "Corn" { denom := "earth", amount := 20 } 1),
         ("carol", ExecuteMsg.RegisterProduct "Rice" { denom := "earth", amount := 30 } 1),
         ("dave", ExecuteMsg.Buy "product-2" 1)]).products.map Prod.snd ∧
    (query_products (runMsgs initStorage
      [("alice", ExecuteMsg.RegisterProduct "Tomato" { denom := "earth", amount := 50 } 2),
       ("bob", ExecuteMsg.RegisterProduct "Corn" { denom := "earth", amount := 20 } 1),
       ("carol", ExecuteMsg.RegisterProduct "Rice" { denom := "earth", amount := 30 } 1),
       ("dave", ExecuteMsg.Buy "product-2" 1)])).Pairwise
      (fun a b => keyLt a.id b.id = true) ∧
    (⟨"product-2", "Corn", 0, ⟨"earth", 20⟩, "bob", ProductStatus.Sold⟩ : Product) ∈
      query_products (runMsgs initStorage
        [("alice", ExecuteMsg.RegisterProduct "Tomato" { denom := "earth", amount := 50 } 2),
         ("bob", ExecuteMsg.RegisterProduct "Corn" { denom := "earth", amount := 20 } 1),
         ("carol", ExecuteMsg.RegisterProduct "Rice" { denom := "earth", amount := 30 } 1),
         ("dave", ExecuteMsg.Buy "product-2" 1)]) :=
  ⟨(C8_list_items ⟨_, rfl⟩).1, (C8_list_items ⟨_, rfl⟩).2.1,
   (C8_list_items ⟨_, rfl⟩).2.2.1
     ("product-2", ⟨"product-2", "Corn", 0, ⟨"earth", 20⟩, "bob", ProductStatus.Sold⟩)
     (by decide)⟩

/-- C9, as stated, is false: a purchase of quantity 0 against an
`Available` item with positive stock succeeds and commits a state
identical to the pre-state, so repeating the identical request yields
the identical result — neither an already-sold error nor a strictly
smaller remaining quantity. -/
theorem C9_counterexample :
    execute_buy
      ⟨some ⟨1⟩, [("product-1",
        ⟨"product-1", "Tomato", 5, ⟨"earth", 50⟩, "alice", ProductStatus.Available⟩)]⟩
      "product-1" 0 =
      Except.ok
        (⟨some ⟨1⟩, [("product-1",
          ⟨"product-1", "Tomato", 5, ⟨"earth", 50⟩, "alice", ProductStatus.Available⟩)]⟩,
         ⟨[("action", "buy"), ("product_id", "product-1"), ("quantity", "0")]⟩) ∧
    ¬ (execute_buy
        ⟨some ⟨1⟩, [("product-1",
          ⟨"product-1", "Tomato", 5, ⟨"earth", 50⟩, "alice", ProductStatus.Available⟩)]⟩
        "product-1" 0 =
        Except.error (StdError.genericErr "Product already sold") ∨
      ∃ s2 r2 p2, execute_buy
          ⟨some ⟨1⟩, [("product-1",
            ⟨"product-1", "Tomato", 5, ⟨"earth", 50⟩, "alice", ProductStatus.Available⟩)]⟩
          "product-1" 0 = Except.ok (s2, r2) ∧
        mapLoad s2.products "product-1" = some p2 ∧ p2.quantity < 5) := by
  refine ⟨rfl, ?_⟩
  intro hbad
  rcases hbad with h | ⟨s2, r2, p2, hok, hload2, hlt⟩
  · have h' : (Except.ok
        (⟨some ⟨1⟩, [("product-1",
          ⟨"product-1", "Tomato", 5, ⟨"earth", 50⟩, "alice", ProductStatus.Available⟩)]⟩,
         ⟨[("action", "buy"), ("product_id", "product-1"), ("quantity", "0")]⟩) :
        Except StdError (Storage × Response)) =
        Except.error (StdError.genericErr "Product already sold") := h
    exact Except.noConfusion h'
  · have hok' : (Except.ok
        (⟨some ⟨1⟩, [("product-1",
          ⟨"product-1", "Tomato", 5, ⟨"earth", 50⟩, "alice", ProductStatus.Available⟩)]⟩,
         ⟨[("action", "buy"), ("product_id", "product-1"), ("quantity", "0")]⟩) :
        Except StdError (Storage × Response)) = Except.ok (s2, r2) := hok
    have hs2 : _ = s2 := congrArg Prod.fst (Except.ok.inj hok')
    subst hs2
    have hp2 : (some
        (⟨"product-1", "Tomato", 5, ⟨"earth", 50⟩, "alice", ProductStatus.Available⟩ :
          Product)) = some p2 := hload2
    have hp2' : _ = p2 := Option.some.inj hp2
    subst hp2'
    exact absurd hlt (by decide)

/-- C9 (amended): repeating a successful purchase of strictly positive
quantity never repeats its outcome: the second identical request either
fails (already-sold when the first purchase depleted the item,
not-enough-stock when less than the request remains) or succeeds with a
strictly smaller remaining quantity than the first call left. -/
theorem C9_repeat_purchase_differs {s s1 : Storage} {r : Response} {pid : String}
    {q : Nat} {p p1 : Product}
    (hq : 0 < q)
    (hload : mapLoad s.products pid = some p)
    (hok : execute_buy s pid q = Except.ok (s1, r))
    (hload1 : mapLoad s1.products pid = some p1) :
    execute_buy s1 pid q = Except.error (StdError.genericErr "Product already sold") ∨
    execute_buy s1 pid q = Except.error (StdError.genericErr "Not enough stock") ∨
    ∃ s2 r2 p2, execute_buy s1 pid q = Except.ok (s2, r2) ∧
      mapLoad s2.products pid = some p2 ∧ p2.quantity < p1.quantity := by
  by_cases hsold : p.status = ProductStatus.Sold
  · rw [execute_buy_eq_alreadySold hload hsold q] at hok
    cases hok
  · by_cases hstock : p.quantity < q
    · rw [execute_buy_eq_insufficient hload hsold hstock] at hok
      cases hok
    · rw [execute_buy_eq_ok hload hsold hstock] at hok
      have h := Except.ok.inj hok
      have h1 : _ = s1 := congrArg Prod.fst h
      subst h1
      have hp1 : _ = p1 :=
        Option.some.inj ((mapLoad_mapSave_self s.products pid _).symm.trans hload1)
      have hq1 : p1.quantity = p.quantity - q := by
        rw [← hp1]
        by_cases h0 : p.quantity - q = 0 <;> simp [h0]
      by_cases h0 : p.quantity - q = 0
      · left
        refine execute_buy_eq_alreadySold hload1 ?_ q
        rw [← hp1]
        simp [h0]
      · have hs1' : p1.status = p.status := by
          rw [← hp1]
          simp [h0]
        have hsold1 : ¬ p1.status = ProductStatus.Sold := by
          rw [hs1']
          exact hsold
        by_cases hstock1 : p1.quantity < q
        · right
          left
          exact execute_buy_eq_insufficient hload1 hsold1 hstock1
        · right
          right
          refine ⟨_, _, _, execute_buy_eq_ok hload1 hsold1 hstock1,
            mapLoad_mapSave_self _ _ _, ?_⟩
          have hge : q ≤ p1.quantity := not_lt.mp hstock1
          by_cases h2 : p1.quantity - q = 0 <;> simp [h2] <;> omega

/-- Witness for C9: buying 2 from stock 3 succeeds leaving 1; the
repeated identical request then fails with the stock error. -/
theorem C9_witness :
    execute_buy
      ⟨some ⟨1⟩, [("product-1",
        ⟨"product-1", "Tomato", 1, ⟨"earth", 50⟩, "alice", ProductStatus.Available⟩)]⟩
      "product-1" 2 = Except.error (StdError.genericErr "Product already sold") ∨
    execute_buy
      ⟨some ⟨1⟩, [("product-1",
        ⟨"product-1", "Tomato", 1, ⟨"earth", 50⟩, "alice", ProductStatus.Available⟩)]⟩
      "product-1" 2 = Except.error (StdError.genericErr "Not enough stock") ∨
    ∃ s2 r2 p2, execute_buy
        ⟨some ⟨1⟩, [("product-1",
          ⟨"product-1", "Tomato", 1, ⟨"earth", 50⟩, "alice", ProductStatus.Available⟩)]⟩
        "product-1" 2 = Except.ok (s2, r2) ∧
      mapLoad s2.products "product-1" = some p2 ∧
      p2.quantity < (⟨"product-1", "Tomato", 1, ⟨"earth", 50⟩, "alice",
        ProductStatus.Available⟩ : Product).quantity :=
  @C9_repeat_purchase_differs
    ⟨some ⟨1⟩, [("product-1",
      ⟨"product-1", "Tomato", 3, ⟨"earth", 50⟩, "alice", ProductStatus.Available⟩)]⟩
    ⟨some ⟨1⟩, [("product-1",
      ⟨"product-1", "Tomato", 1, ⟨"earth", 50⟩, "alice", ProductStatus.Available⟩)]⟩
    ⟨[("action", "buy"), ("product_id", "product-1"), ("quantity", "2")]⟩
    "product-1" 2
    ⟨"product-1", "Tomato", 3, ⟨"earth", 50⟩, "alice", ProductStatus.Available⟩
    ⟨"product-1", "Tomato", 1, ⟨"earth", 50⟩, "alice", ProductStatus.Available⟩
    (by decide) rfl rfl rfl

end XionFarm
